import Mathlib

/-!
Verification of the landing-page scraper's extraction and classification
pipeline (card parser, page aggregator, priority classifier, scan
orchestrator) as implemented in domain_tracker.py and headless_scanner.py.
HTML card fragments are modelled as value objects exposing exactly the
queries the parsers perform: sub-element text lookup, the button's class
list, and its disabled attribute.  Python string operations are modelled
over the character list of a string; machine floats are idealised as exact
rationals, with Python's round(x, 2) modelled as round-half-to-even at two
decimals.
-/

namespace Scraper

/-- Python str.strip(): drop whitespace from both ends. -/
def pyStrip (s : String) : String :=
  String.mk (((s.data.dropWhile Char.isWhitespace).reverse.dropWhile Char.isWhitespace).reverse)

/-- Python str.lower() on the ASCII text the page template uses. -/
def pyLower (s : String) : String :=
  String.mk (s.data.map Char.toLower)

/-- Python s.startswith(pre). -/
def pyStartsWith (s pre : String) : Bool :=
  pre.data.isPrefixOf s.data

/-- Sale status of one domain card, as the parsers produce it. -/
inductive Status where
  | sold
  | available
  | coming_soon
  | error
  deriving DecidableEq

/-- The add-to-cart button of a card: raw text, class list, and whether a
(truthy) disabled attribute is present. -/
structure Button where
  text : String
  classes : List String
  disabled : Bool
  deriving DecidableEq

/-- One well-formed domain-card fragment: the optional sub-elements the
parsers look up (domain-slug text, domain-ending text, add-to-cart button,
price text). -/
structure Card where
  slug : Option String
  ending : Option String
  button : Option Button
  priceText : Option String
  deriving DecidableEq

/-- A card-fragment handle handed to the parser: either well formed, or
malformed in a way that makes the extraction body raise (the except
path of the extraction routines). -/
inductive Fragment where
  | ok (c : Card)
  | malformed (msg : String)
  deriving DecidableEq

/-- The record a card parser returns (DomainCardRecord): the Python dict
with keys domain, status, price, price_numeric, button_text, and the
diagnostic error entry attached on the failure path. -/
structure Record where
  domain : String
  status : Status
  price : String
  price_numeric : Nat
  button_text : String
  errMsg : Option String
  deriving DecidableEq

/-- Value of a digit run, as Python's int() on the matched group. -/
def digitsToNat (ds : List Char) : Nat :=
  ds.foldl (fun n c => n * 10 + (c.toNat - 48)) 0

/-- The regex search for a dollar sign followed by one or more digits:
scan left to right, and at the first position where a dollar sign is
immediately followed by a digit, capture the maximal digit run. -/
def findDollarDigits : List Char → Option (List Char)
  | [] => none
  | c :: rest =>
    if c = '$' then
      let ds := rest.takeWhile Char.isDigit
      if ds.isEmpty then findDollarDigits rest else some ds
    else findDollarDigits rest

/-- Price extraction shared by every parser variant: strip the price
element's text, search it for a dollar amount; on a match the display is
a dollar sign followed by the matched digits and the numeric value is the
digits' value, otherwise the empty display and 0.  An absent price element
gives the same empty result. -/
def pricePair : Option String → String × Nat
  | none => ("", 0)
  | some t =>
    match findDollarDigits (pyStrip t).data with
    | some ds => ("$" ++ String.mk ds, digitsToNat ds)
    | none => ("", 0)

/-- Domain name: trimmed slug text plus trimmed ending text when both
sub-elements are present, else the empty string. -/
def domainName (c : Card) : String :=
  match c.slug, c.ending with
  | some s, some e => pyStrip s ++ pyStrip e
  | _, _ => ""

/-- The record returned from the parsers' exception handler. -/
def errRecord (msg : String) : Record :=
  { domain := "Unknown", status := .error, price := "", price_numeric := 0,
    button_text := "", errMsg := some msg }

/-- Raw trimmed button text recorded in the result dict. -/
def rawButtonText : Option Button → String
  | some b => pyStrip b.text
  | none => ""

/-- HeadlessScanner.extract_domain_info: status from the button's trimmed
lowercased text in priority order, falling back to the sold-class-and-
disabled heuristic; price via pricePair. -/
def headlessExtract : Fragment → Record
  | .malformed msg => errRecord msg
  | .ok c =>
    let button_text :=
      match c.button with
      | some b => pyLower (pyStrip b.text)
      | none => ""
    let button_classes :=
      match c.button with
      | some b => b.classes
      | none => []
    let has_disabled :=
      match c.button with
      | some b => b.disabled
      | none => false
    let status :=
      if button_text = "sold" then Status.sold
      else if button_text = "coming soon" then Status.coming_soon
      else if button_text = "buy now" then Status.available
      else if pyStartsWith button_text "available" then Status.coming_soon
      else if c.button.isSome && (button_classes.contains "sold" && has_disabled) then
        Status.sold
      else Status.available
    let p := pricePair c.priceText
    { domain := domainName c, status := status, price := p.1,
      price_numeric := p.2, button_text := rawButtonText c.button,
      errMsg := none }

/-- DomainTracker._extract_domain_info: status only from the heuristic
"button present and (sold class in the class list or disabled attribute)";
the button's text is recorded but never consulted. -/
def trackerExtract : Fragment → Record
  | .malformed msg => errRecord msg
  | .ok c =>
    let is_sold :=
      c.button.isSome &&
        (match c.button with
         | some b => b.classes.contains "sold" || b.disabled
         | none => false)
    let p := pricePair c.priceText
    { domain := domainName c,
      status := if is_sold then Status.sold else Status.available,
      price := p.1, price_numeric := p.2,
      button_text := rawButtonText c.button,
      errMsg := none }

/-- LiveDomainScanner.extract_domain_info: like the headless parser, but
the text chain stops after the buy-now rule — there is no
starts-with-available rule — before the sold-class-and-disabled
fallback. -/
def liveExtract : Fragment → Record
  | .malformed msg => errRecord msg
  | .ok c =>
    let button_text :=
      match c.button with
      | some b => pyLower (pyStrip b.text)
      | none => ""
    let status :=
      if button_text = "sold" then Status.sold
      else if button_text = "coming soon" then Status.coming_soon
      else if button_text = "buy now" then Status.available
      else if c.button.isSome &&
          (match c.button with
           | some b => b.classes.contains "sold" && b.disabled
           | none => false) then
        Status.sold
      else Status.available
    let p := pricePair c.priceText
    { domain := domainName c, status := status, price := p.1,
      price_numeric := p.2, button_text := rawButtonText c.button,
      errMsg := none }

/-- The status-derivation chain exactly as the claim states it, as a
function of the optional button alone. -/
def specStatus : Option Button → Status
  | none => .available
  | some b =>
    let t := pyLower (pyStrip b.text)
    if t = "sold" then .sold
    else if t = "coming soon" then .coming_soon
    else if t = "buy now" then .available
    else if pyStartsWith t "available" then .coming_soon
    else if b.classes.contains "sold" && b.disabled then .sold
    else .available

/-- The claimed chain with the starts-with-available rule removed: what
the live scanner variant actually implements. -/
def specStatusLive : Option Button → Status
  | none => .available
  | some b =>
    let t := pyLower (pyStrip b.text)
    if t = "sold" then .sold
    else if t = "coming soon" then .coming_soon
    else if t = "buy now" then .available
    else if b.classes.contains "sold" && b.disabled then .sold
    else .available

/-! ## Rounding

Python's round(x, 2) on the idealised rational value: round half to even
at two decimal places. -/

/-- Round half to even to an integer. -/
def rhe (x : ℚ) : ℤ :=
  if x - ⌊x⌋ < 1/2 then ⌊x⌋
  else if 1/2 < x - ⌊x⌋ then ⌊x⌋ + 1
  else if ⌊x⌋ % 2 = 0 then ⌊x⌋ else ⌊x⌋ + 1

/-- Python round(x, 2). -/
def pyRound2 (x : ℚ) : ℚ := (rhe (x * 100) : ℚ) / 100

/-! ## Page aggregation (DomainTracker.scrape_partner_page) -/

/-- The per-card records of one page, in page order. -/
def trackerDomains (cards : List Fragment) : List Record :=
  cards.map trackerExtract

/-- Number of records whose status is sold. -/
def soldOf (ds : List Record) : Nat :=
  (ds.filter (fun d => decide (d.status = Status.sold))).length

/-- Sum of price_numeric over sold records with a positive price. -/
def soldValueOf (ds : List Record) : Nat :=
  ((ds.filter (fun d => decide (d.status = Status.sold) && decide (0 < d.price_numeric))).map
    (fun d => d.price_numeric)).sum

/-- The raw (unrounded) percentage sold: sold/total*100 when the page has
cards, else 0. -/
def rawPct (sold total : Nat) : ℚ :=
  if 0 < total then (sold : ℚ) / (total : ℚ) * 100 else 0

/-- Result of the priority classifier: the needs_update dict. -/
structure NeedsUpdate where
  needs_update : Bool
  priority : String
  reason : String
  deriving DecidableEq

/-- DomainTracker._needs_update: the priority classifier, fed the raw
percentage together with the page's counts and premium flag. -/
def needsUpdateFn (percentage_sold : ℚ) (sold_count total_count : Nat)
    (has_premium_domains : Bool) : NeedsUpdate :=
  if !has_premium_domains then
    { needs_update := false, priority := "none",
      reason := "No premium domains on this page" }
  else if 90 ≤ percentage_sold then
    { needs_update := true, priority := "high",
      reason := "Almost sold out (" ++ Nat.repr sold_count ++ "/" ++
        Nat.repr total_count ++ " sold)" }
  else if 75 ≤ percentage_sold then
    { needs_update := true, priority := "medium",
      reason := "Mostly sold (" ++ Nat.repr sold_count ++ "/" ++
        Nat.repr total_count ++ " sold)" }
  else if sold_count = total_count then
    { needs_update := true, priority := "high", reason := "Completely sold out" }
  else
    { needs_update := false, priority := "low", reason := "" }

/-- One partner page's scan outcome (PagePartnerReport): the Python result
dict, with the error key as an option and the numeric keys at their
.get(..., 0) defaults when absent. -/
structure PageReport where
  partner : String
  url : String
  error : Option String
  has_premium_domains : Bool
  total_domains : Nat
  sold_domains : Nat
  available_domains : Nat
  percentage_sold : ℚ
  total_sold_value : Nat
  domains : List Record
  needsUpdate : NeedsUpdate
  deriving DecidableEq

/-- The error-tagged report dict: only partner, url, error and a false
premium flag are present; every other field reads at its default. -/
def errorPageReport (partner url msg : String) : PageReport :=
  { partner := partner, url := url, error := some msg,
    has_premium_domains := false, total_domains := 0, sold_domains := 0,
    available_domains := 0, percentage_sold := 0, total_sold_value := 0,
    domains := [],
    needsUpdate := { needs_update := false, priority := "none", reason := "" } }

/-- What the page fetcher handed the aggregator for one partner: located
card fragments, a failed retrieval (None page source), or an exception
raised while scraping. -/
inductive FetchOutcome where
  | html (cards : List Fragment)
  | fetchFail
  | exn (msg : String)
  deriving DecidableEq

/-- DomainTracker.scrape_partner_page: build one PageReport from the fetch
outcome for one partner. -/
def scrapePartnerPage (partner url : String) : FetchOutcome → PageReport
  | .fetchFail => errorPageReport partner url "Failed to retrieve page content"
  | .exn msg => errorPageReport partner url ("Parsing failed: " ++ msg)
  | .html cards =>
    let domains := trackerDomains cards
    let total_count := cards.length
    let sold_count := soldOf domains
    let has_premium_domains := decide (0 < total_count)
    let percentage_sold := rawPct sold_count total_count
    { partner := partner, url := url, error := none,
      has_premium_domains := has_premium_domains,
      total_domains := total_count,
      sold_domains := sold_count,
      available_domains := total_count - sold_count,
      percentage_sold := pyRound2 percentage_sold,
      total_sold_value := soldValueOf domains,
      domains := domains,
      needsUpdate := needsUpdateFn percentage_sold sold_count total_count
        has_premium_domains }

/-! ## Scan orchestration (DomainTracker.scan_all_partners) -/

/-- Python url.rstrip on a slash: drop trailing slashes. -/
def rstripSlash (s : String) : String :=
  String.mk (s.data.reverse.dropWhile (fun c => c = '/')).reverse

/-- Python text.split on a slash separator, over the character list. -/
def splitSlash : List Char → List (List Char)
  | [] => [[]]
  | c :: rest =>
    match splitSlash rest with
    | [] => if c = '/' then [[], []] else [[c]]
    | h :: t => if c = '/' then [] :: h :: t else (c :: h) :: t

/-- Partner name from the URL on the non-raising path: last path segment
of the slash-stripped URL, falling back to the segment before it when the
last one is empty.  This total version (default empty name) is only used
where the derivation cannot raise; tryPartnerName and handlerPartnerName
below model the fallible derivation, with none for the IndexError the real
code raises when the fallback index is out of range. -/
def partnerName (url : String) : String :=
  let parts := (splitSlash (rstripSlash url).data).map String.mk
  let last := parts.getLastD ""
  if last = "" then parts.getD (parts.length - 2) "" else last

/-- The try-block name derivation of scrape_partner_page (also used by the
headless run_scan loop): last segment of the slash-stripped URL, the
segment before it when the last is empty, and none — an IndexError — when
that fallback index does not exist. -/
def tryPartnerName (url : String) : Option String :=
  if ¬ (((splitSlash (rstripSlash url).data).map String.mk).getLastD "") = "" then
    some (((splitSlash (rstripSlash url).data).map String.mk).getLastD "")
  else if 2 ≤ ((splitSlash (rstripSlash url).data).map String.mk).length then
    some (((splitSlash (rstripSlash url).data).map String.mk).getD
      (((splitSlash (rstripSlash url).data).map String.mk).length - 2) "")
  else none

/-- The name expression of scrape_partner_page's except handler: last
segment of the raw (unstripped) URL or, when that is empty, the segment
before it; none — an IndexError raised inside the handler itself — when
that fallback index does not exist. -/
def handlerPartnerName (url : String) : Option String :=
  if ¬ (((splitSlash url.data).map String.mk).getLastD "") = "" then
    some (((splitSlash url.data).map String.mk).getLastD "")
  else if 2 ≤ ((splitSlash url.data).map String.mk).length then
    some (((splitSlash url.data).map String.mk).getD
      (((splitSlash url.data).map String.mk).length - 2) "")
  else none

/-- Summary statistics of one orchestrated run. -/
structure Summary where
  total_partners_scanned : Nat
  successful_scans : Nat
  failed_scans : Nat
  pages_with_premium_domains : Nat
  pages_without_premium_domains : Nat
  partners_needing_update : Nat
  high_priority_updates : Nat
  total_domains_across_all_partners : Nat
  total_sold_across_all_partners : Nat
  total_sold_value : Nat
  overall_sell_through_rate : ℚ
  deriving DecidableEq

/-- The successful reports that found premium domains: the only reports
the summary's domain totals range over. -/
def pagesWithDomains (results : List PageReport) : List PageReport :=
  (results.filter (fun r => r.error.isNone)).filter (fun r => r.has_premium_domains)

/-- DomainTracker._generate_summary. -/
def generateSummary (results : List PageReport) : Summary :=
  let successful := results.filter (fun r => r.error.isNone)
  let failed := results.filter (fun r => r.error.isSome)
  let pagesWith := pagesWithDomains results
  let pagesWithout := successful.filter (fun r => !r.has_premium_domains)
  let needsUpd := pagesWith.filter (fun r => r.needsUpdate.needs_update)
  let highPri := needsUpd.filter (fun r => r.needsUpdate.priority = "high")
  let totalDomains := (pagesWith.map (fun r => r.total_domains)).sum
  let totalSold := (pagesWith.map (fun r => r.sold_domains)).sum
  let totalValue := (pagesWith.map (fun r => r.total_sold_value)).sum
  { total_partners_scanned := results.length,
    successful_scans := successful.length,
    failed_scans := failed.length,
    pages_with_premium_domains := pagesWith.length,
    pages_without_premium_domains := pagesWithout.length,
    partners_needing_update := needsUpd.length,
    high_priority_updates := highPri.length,
    total_domains_across_all_partners := totalDomains,
    total_sold_across_all_partners := totalSold,
    total_sold_value := totalValue,
    overall_sell_through_rate :=
      pyRound2 (if 0 < totalDomains then (totalSold : ℚ) / (totalDomains : ℚ) * 100 else 0) }

/-- The whole scan report. -/
structure ScanReport where
  summary : Summary
  results : List PageReport
  deriving DecidableEq

/-- DomainTracker.scan_all_partners: one report per input URL, in input
order, then the summary over all of them.  The page fetcher collaborator
is modelled by pairing each URL with its fetch outcome. -/
def scanAllPartners (inputs : List (String × FetchOutcome)) : ScanReport :=
  let results := inputs.map (fun p => scrapePartnerPage (partnerName p.1) p.1 p.2)
  { summary := generateSummary results, results := results }

/-- DomainTracker.scrape_partner_page with its exception behavior made
explicit: a name derivation that raises in the try block is caught and
yields an error report named by the handler expression, unless the handler
expression itself raises, which propagates to the caller; an exception
while scraping likewise produces an error report named by the handler
expression. -/
def scrapePartnerPageExc (url : String) (o : FetchOutcome) :
    Except String PageReport :=
  match tryPartnerName url with
  | none =>
    match handlerPartnerName url with
    | some hname =>
      .ok (errorPageReport hname url "Parsing failed: list index out of range")
    | none => .error "list index out of range"
  | some name =>
    match o with
    | .exn msg =>
      match handlerPartnerName url with
      | some hname => .ok (errorPageReport hname url ("Parsing failed: " ++ msg))
      | none => .error "list index out of range"
    | o2 => .ok (scrapePartnerPage name url o2)

/-- The sequential partner loop of scan_all_partners: one report per URL
in order, aborting at the first uncaught exception. -/
def runPartners : List (String × FetchOutcome) → Except String (List PageReport)
  | [] => .ok []
  | q :: rest =>
    match scrapePartnerPageExc q.1 q.2 with
    | .error e => .error e
    | .ok r =>
      match runPartners rest with
      | .error e => .error e
      | .ok rs => .ok (r :: rs)

/-- DomainTracker.scan_all_partners with exception propagation: the report
of every partner in input order plus the summary, or the uncaught
exception that aborted the run. -/
def scanAllPartnersExc (inputs : List (String × FetchOutcome)) :
    Except String ScanReport :=
  match runPartners inputs with
  | .error e => .error e
  | .ok results => .ok { summary := generateSummary results, results := results }

/-! ## Headless scanner variant (headless_scanner.py) -/

/-- The dataclass ScanResult of the headless scanner. -/
structure ScanResult where
  partner : String
  url : String
  status : String
  has_domains : Bool
  total_domains : Nat
  sold_domains : Nat
  percentage_sold : ℚ
  total_sold_value : Nat
  error_message : String
  domains_data : List Record
  deriving DecidableEq

/-- HeadlessScanner.scan_partner: an exception gives an error result; an
empty card list a completed no-domains result; otherwise per-card
extraction and the same aggregate arithmetic as the tracker. -/
def headlessScanPartner (partner url : String) :
    Except String (List Fragment) → ScanResult
  | .error msg =>
    { partner := partner, url := url, status := "error", has_domains := false,
      total_domains := 0, sold_domains := 0, percentage_sold := 0,
      total_sold_value := 0, error_message := msg, domains_data := [] }
  | .ok cards =>
    if cards.length = 0 then
      { partner := partner, url := url, status := "completed",
        has_domains := false, total_domains := 0, sold_domains := 0,
        percentage_sold := 0, total_sold_value := 0, error_message := "",
        domains_data := [] }
    else
      let domains := cards.map headlessExtract
      let sold_count := soldOf domains
      { partner := partner, url := url, status := "completed",
        has_domains := true, total_domains := cards.length,
        sold_domains := sold_count,
        percentage_sold := pyRound2 (rawPct sold_count cards.length),
        total_sold_value := soldValueOf domains,
        error_message := "", domains_data := domains }

/-- Assignment into the result dict keyed by partner name: an existing
key keeps its position and takes the new value, a new key is appended. -/
def upsert (m : List (String × ScanResult)) (k : String) (v : ScanResult) :
    List (String × ScanResult) :=
  if m.any (fun e => decide (e.1 = k)) then
    m.map (fun e => if e.1 = k then (k, v) else e)
  else m ++ [(k, v)]

/-- The loop of HeadlessScanner.run_scan: derive each URL's partner name
(none — an uncaught IndexError — aborts the run), scan, and store the
result in the dict keyed by the derived name, so a later URL with the
same derived name overwrites the earlier entry. -/
def headlessRunScanGo (acc : List (String × ScanResult)) :
    List (String × Except String (List Fragment)) →
      Option (List (String × ScanResult))
  | [] => some acc
  | q :: rest =>
    match tryPartnerName q.1 with
    | none => none
    | some name =>
      headlessRunScanGo (upsert acc name (headlessScanPartner name q.1 q.2)) rest

/-- HeadlessScanner.run_scan's accumulated result mapping. -/
def headlessRunScan (inputs : List (String × Except String (List Fragment))) :
    Option (List (String × ScanResult)) :=
  headlessRunScanGo [] inputs

/-- The needs_update dict the headless scanner's generate_report attaches
to a completed entry: same rule ladder with a 50 percent medium cutoff and
no completely-sold-out branch, evaluated on the stored (rounded)
percentage. -/
def classifyHeadlessEntry (r : ScanResult) : NeedsUpdate :=
  if !r.has_domains then
    { needs_update := false, priority := "none",
      reason := "No premium domains on this page" }
  else if 90 ≤ r.percentage_sold then
    { needs_update := true, priority := "high",
      reason := "Almost sold out (" ++ Nat.repr r.sold_domains ++ "/" ++
        Nat.repr r.total_domains ++ " sold)" }
  else if 50 ≤ r.percentage_sold then
    { needs_update := true, priority := "medium",
      reason := "Mostly sold (" ++ Nat.repr r.sold_domains ++ "/" ++
        Nat.repr r.total_domains ++ " sold)" }
  else
    { needs_update := false, priority := "low", reason := "" }

/-- The priority-classifier contract exactly as the claim states it, with
the medium-tier cutoff m as the one configuration knob: rules evaluated in
order, first match wins. -/
def specClassify (m : ℚ) (has_premium : Bool) (percentage_sold : ℚ)
    (sold total : Nat) : NeedsUpdate :=
  if has_premium = false then
    { needs_update := false, priority := "none",
      reason := "No premium domains on this page" }
  else if 90 ≤ percentage_sold then
    { needs_update := true, priority := "high",
      reason := "Almost sold out (" ++ Nat.repr sold ++ "/" ++
        Nat.repr total ++ " sold)" }
  else if m ≤ percentage_sold then
    { needs_update := true, priority := "medium",
      reason := "Mostly sold (" ++ Nat.repr sold ++ "/" ++
        Nat.repr total ++ " sold)" }
  else if sold = total then
    { needs_update := true, priority := "high", reason := "Completely sold out" }
  else
    { needs_update := false, priority := "low", reason := "" }

/-- Whether a fetch outcome makes the tracker record an error report. -/
def fetchFailed : FetchOutcome → Bool
  | .html _ => false
  | .fetchFail => true
  | .exn _ => true

/-- Position i of the text holds a dollar sign immediately followed by a
digit: the positions at which the price pattern can match. -/
def dollarAt (l : List Char) (i : Nat) : Prop :=
  l[i]? = some '$' ∧ ∃ d, l[i + 1]? = some d ∧ d.isDigit

/-! ## Concrete fixtures -/

/-- A card whose button says Sold but carries neither a sold class nor a
disabled attribute. -/
def soldTextCard : Card :=
  { slug := some "moon", ending := some ".com",
    button := some { text := " Sold ", classes := ["add-to-cart"], disabled := false },
    priceText := some "$250 USD" }

/-- A card whose button text starts with Available but which carries
neither a sold class nor a disabled attribute. -/
def availCard : Card :=
  { slug := some "c", ending := some ".x",
    button := some { text := "Available Soon", classes := ["add-to-cart"], disabled := false },
    priceText := none }

/-- A card the tracker heuristic classifies as sold. -/
def soldFrag : Fragment :=
  .ok { slug := some "a", ending := some ".x",
        button := some { text := "Sold", classes := ["add-to-cart", "sold"], disabled := true },
        priceText := some "$100" }

/-- A card offered for sale. -/
def buyFrag : Fragment :=
  .ok { slug := some "b", ending := some ".x",
        button := some { text := "Buy Now", classes := ["add-to-cart"], disabled := false },
        priceText := some "$50" }

/-- Ten cards, nine of them sold. -/
def cards9 : List Fragment := List.replicate 9 soldFrag ++ [buyFrag]

/-- Ten cards, eight of them sold. -/
def cards8 : List Fragment := List.replicate 8 soldFrag ++ [buyFrag, buyFrag]

/-- A card whose price text has leading zeros after the dollar sign. -/
def c007 : Card :=
  { slug := none, ending := none, button := none, priceText := some "$007" }

/-- A two-partner run: one page with cards, one failed fetch. -/
def demoInputs : List (String × FetchOutcome) :=
  [("https://x/p/", FetchOutcome.html cards9), ("https://x/q/", FetchOutcome.fetchFail)]

/-! ## Rounding lemmas -/

theorem rhe_intCast (n : ℤ) : rhe (n : ℚ) = n := by
  unfold rhe
  rw [Int.floor_intCast]
  norm_num

theorem le_rhe_of_le {x : ℚ} {n : ℤ} (h : (n : ℚ) ≤ x) : n ≤ rhe x := by
  have hf : n ≤ ⌊x⌋ := Int.le_floor.mpr h
  unfold rhe
  split
  · exact hf
  · split
    · omega
    · split <;> omega

theorem rhe_le_of_le {x : ℚ} {n : ℤ} (h : x ≤ (n : ℚ)) : rhe x ≤ n := by
  have hf : ⌊x⌋ ≤ n := by
    have h2 := Int.floor_le_floor h
    simpa using h2
  rcases lt_or_eq_of_le hf with hlt | heq
  · unfold rhe
    split
    · exact hf
    · split
      · omega
      · split <;> omega
  · have hx0 : x - (⌊x⌋ : ℚ) < 1 / 2 := by
      have hxn : x ≤ ((⌊x⌋ : ℤ) : ℚ) := by rw [heq]; exact h
      linarith
    unfold rhe
    rw [if_pos hx0]
    exact hf

theorem pyRound2_intCast (n : ℤ) : pyRound2 (n : ℚ) = n := by
  unfold pyRound2
  have h : (n : ℚ) * 100 = ((n * 100 : ℤ) : ℚ) := by push_cast; ring
  rw [h, rhe_intCast]
  push_cast
  field_simp

theorem pyRound2_zero : pyRound2 0 = 0 := by
  have h := pyRound2_intCast 0
  simpa using h

theorem pyRound2_hundred : pyRound2 100 = 100 := by
  have h := pyRound2_intCast 100
  simpa using h

theorem pyRound2_nonneg {x : ℚ} (h : 0 ≤ x) : 0 ≤ pyRound2 x := by
  unfold pyRound2
  have h2 : (0 : ℤ) ≤ rhe (x * 100) := by
    apply le_rhe_of_le
    push_cast
    positivity
  have h3 : (0 : ℚ) ≤ (rhe (x * 100) : ℚ) := by exact_mod_cast h2
  positivity

theorem pyRound2_le_hundred {x : ℚ} (h : x ≤ 100) : pyRound2 x ≤ 100 := by
  unfold pyRound2
  have h2 : rhe (x * 100) ≤ (10000 : ℤ) := by
    apply rhe_le_of_le
    push_cast
    linarith
  rw [div_le_iff₀ (by norm_num : (0 : ℚ) < 100)]
  calc ((rhe (x * 100) : ℤ) : ℚ) ≤ ((10000 : ℤ) : ℚ) := by exact_mod_cast h2
    _ = 100 * 100 := by norm_num

theorem rawPct_nonneg (s t : Nat) : 0 ≤ rawPct s t := by
  unfold rawPct
  split
  · positivity
  · exact le_refl 0

theorem rawPct_le_hundred {s t : Nat} (h : s ≤ t) : rawPct s t ≤ 100 := by
  unfold rawPct
  split
  · rename_i ht
    have ht' : (0 : ℚ) < t := by exact_mod_cast ht
    rw [div_mul_eq_mul_div, div_le_iff₀ ht']
    have hst : (s : ℚ) ≤ t := by exact_mod_cast h
    linarith
  · norm_num

theorem rawPct_self {t : Nat} (ht : 0 < t) : rawPct t t = 100 := by
  unfold rawPct
  rw [if_pos ht]
  have hne : (t : ℚ) ≠ 0 := by
    exact_mod_cast Nat.pos_iff_ne_zero.mp ht
  rw [div_self hne, one_mul]

/-! ## Card parser lemmas -/

theorem takeWhile_all_digits (l : List Char) :
    ((l.takeWhile Char.isDigit).all Char.isDigit) = true :=
  List.all_takeWhile

theorem findDollarDigits_digits :
    ∀ l ds : List Char, findDollarDigits l = some ds →
      ds ≠ [] ∧ ds.all Char.isDigit = true := by
  intro l
  induction l with
  | nil =>
    intro ds h
    simp [findDollarDigits] at h
  | cons c rest ih =>
    intro ds h
    simp only [findDollarDigits] at h
    split_ifs at h with hc hemp
    · exact ih ds h
    · obtain rfl : rest.takeWhile Char.isDigit = ds := by
        exact Option.some.inj h
      refine ⟨?_, takeWhile_all_digits rest⟩
      intro hnil
      rw [hnil] at hemp
      simp at hemp
    · exact ih ds h

theorem pricePair_shape (t? : Option String) :
    ((pricePair t?).1 = "" ∧ (pricePair t?).2 = 0) ∨
    ∃ ds : List Char, ds ≠ [] ∧ ds.all Char.isDigit = true ∧
      (pricePair t?).1 = "$" ++ String.mk ds ∧ (pricePair t?).2 = digitsToNat ds := by
  cases t? with
  | none => exact Or.inl ⟨rfl, rfl⟩
  | some t =>
    cases hfd : findDollarDigits (pyStrip t).data with
    | none =>
      left
      constructor <;> simp [pricePair, hfd]
    | some ds =>
      right
      obtain ⟨hne, hall⟩ := findDollarDigits_digits _ _ hfd
      exact ⟨ds, hne, hall, by simp [pricePair, hfd], by simp [pricePair, hfd]⟩

theorem trackerExtract_price (c : Card) :
    (trackerExtract (.ok c)).price = (pricePair c.priceText).1 := rfl

theorem trackerExtract_price_numeric (c : Card) :
    (trackerExtract (.ok c)).price_numeric = (pricePair c.priceText).2 := rfl

theorem headlessExtract_price (c : Card) :
    (headlessExtract (.ok c)).price = (pricePair c.priceText).1 := rfl

theorem headlessExtract_price_numeric (c : Card) :
    (headlessExtract (.ok c)).price_numeric = (pricePair c.priceText).2 := rfl

/-! ## Claim C1 -/

/-- C1 (amended): the headless scanner's card parser derives status by the
claimed chain: no button means available with empty recorded button text;
otherwise the trimmed lowercased text is tried in priority order (sold,
coming soon, buy now, starts with available) before the sold-class-AND-
disabled fallback, so text Sold in any case yields sold.  The
DomainTracker variant instead never consults the text: it yields sold
exactly when a button is present and has a sold marker class OR a disabled
attribute.  The LiveDomainScanner variant follows the claimed chain except
that it omits the starts-with-available rule, so such text falls through
to the sold-class-AND-disabled fallback. -/
theorem card_parser_status_rules :
    (∀ c : Card, (headlessExtract (.ok c)).status = specStatus c.button) ∧
    (∀ c : Card, c.button = none →
      (headlessExtract (.ok c)).status = Status.available ∧
      (headlessExtract (.ok c)).button_text = "") ∧
    (∀ (c : Card) (b : Button), c.button = some b →
      pyLower (pyStrip b.text) = "sold" →
      (headlessExtract (.ok c)).status = Status.sold) ∧
    (∀ c : Card, (trackerExtract (.ok c)).status = Status.sold ↔
      ∃ b : Button, c.button = some b ∧
        ("sold" ∈ b.classes ∨ b.disabled = true)) ∧
    (∀ c : Card, (liveExtract (.ok c)).status = specStatusLive c.button) ∧
    (∀ (c : Card) (b : Button), c.button = some b →
      pyStartsWith (pyLower (pyStrip b.text)) "available" = false →
      (liveExtract (.ok c)).status = specStatus c.button) := by
  refine ⟨?_, ?_, ?_, ?_, ?_, ?_⟩
  · intro c
    cases hb : c.button with
    | none =>
      simp only [headlessExtract, specStatus, hb]
      decide
    | some b => simp [headlessExtract, specStatus, hb]
  · intro c hb
    refine ⟨?_, ?_⟩
    · simp only [headlessExtract, hb]
      decide
    · simp [headlessExtract, hb, rawButtonText]
  · intro c b hb htext
    simp [headlessExtract, hb, htext]
  · intro c
    constructor
    · intro h
      cases hb : c.button with
      | none =>
        rw [show (trackerExtract (.ok c)).status = Status.available from by
          simp [trackerExtract, hb]] at h
        exact absurd h (by decide)
      | some b =>
        refine ⟨b, rfl, ?_⟩
        by_contra hcon
        rw [not_or] at hcon
        obtain ⟨hm, hd⟩ := hcon
        have hdf : b.disabled = false := by
          cases hval : b.disabled
          · rfl
          · exact absurd hval hd
        rw [show (trackerExtract (.ok c)).status = Status.available from by
          simp [trackerExtract, hb, hm, hdf]] at h
        exact absurd h (by decide)
    · rintro ⟨b, hb, hor⟩
      have hbool : (b.classes.contains "sold" || b.disabled) = true := by
        rcases hor with hm | hd
        · have hmc : b.classes.contains "sold" = true := by simpa using hm
          rw [hmc, Bool.true_or]
        · rw [hd, Bool.or_true]
      simp only [trackerExtract, hb, Option.isSome_some, Bool.true_and]
      rw [hbool]
      rfl
  · intro c
    cases hb : c.button with
    | none =>
      simp only [liveExtract, specStatusLive, hb]
      decide
    | some b => simp [liveExtract, specStatusLive, hb]
  · intro c b hb hav
    simp [liveExtract, specStatus, hb, hav]

/-- C1 counterexample: a card whose button text is Sold (so the claimed
text rule demands status sold) but which the DomainTracker parser marks
available, because that variant only looks at classes and the disabled
attribute; and a card whose button text starts with available (so the
claimed chain demands coming_soon) but which the LiveDomainScanner parser
marks available, because that variant has no starts-with-available
rule. -/
theorem tracker_ignores_sold_button_text :
    pyLower (pyStrip " Sold ") = "sold" ∧
    (trackerExtract (.ok soldTextCard)).button_text = "Sold" ∧
    (trackerExtract (.ok soldTextCard)).status = Status.available ∧
    ¬ (trackerExtract (.ok soldTextCard)).status = Status.sold ∧
    pyStartsWith (pyLower (pyStrip "Available Soon")) "available" = true ∧
    specStatus availCard.button = Status.coming_soon ∧
    (liveExtract (.ok availCard)).status = Status.available ∧
    ¬ (liveExtract (.ok availCard)).status = Status.coming_soon := by
  refine ⟨by decide, by decide, by decide, by decide, by decide, by decide,
    by decide, by decide⟩

/-! ## Claim C5 -/

/-- C5 (amended): the card parsers are total — every fragment yields a
record — and on a structural failure the record has status error, domain
Unknown (not empty), empty price fields and the diagnostic message
attached. -/
theorem parser_total_error_record :
    (∀ msg : String, trackerExtract (.malformed msg) =
      { domain := "Unknown", status := Status.error, price := "",
        price_numeric := 0, button_text := "", errMsg := some msg }) ∧
    (∀ msg : String, headlessExtract (.malformed msg) =
      { domain := "Unknown", status := Status.error, price := "",
        price_numeric := 0, button_text := "", errMsg := some msg }) :=
  ⟨fun _ => rfl, fun _ => rfl⟩

/-- C5 counterexample: on the failure path the returned record's domain is
the literal Unknown, not the empty string the claim asserts. -/
theorem error_record_domain_not_empty :
    (trackerExtract (.malformed "malformed card")).status = Status.error ∧
    (trackerExtract (.malformed "malformed card")).domain = "Unknown" ∧
    ¬ (trackerExtract (.malformed "malformed card")).domain = "" := by
  refine ⟨by decide, by decide, by decide⟩

/-! ## Claim C10 -/

/-- C10 (amended): on the normal path the price display is either empty or
a dollar sign followed by the nonempty digit run matched after the dollar
sign, whose value is price_numeric (this equals the decimal digits of
price_numeric only when the run has no leading zeros); price text
containing a zero amount gives display with numeric 0, so an empty
display is not equivalent to price_numeric being 0. -/
theorem price_display_digits_of_numeric :
    (∀ c : Card, (trackerExtract (.ok c)).price = "" ∨
      ∃ ds : List Char, ds ≠ [] ∧ ds.all Char.isDigit = true ∧
        (trackerExtract (.ok c)).price = "$" ++ String.mk ds ∧
        (trackerExtract (.ok c)).price_numeric = digitsToNat ds) ∧
    (∀ c : Card, (headlessExtract (.ok c)).price = "" ∨
      ∃ ds : List Char, ds ≠ [] ∧ ds.all Char.isDigit = true ∧
        (headlessExtract (.ok c)).price = "$" ++ String.mk ds ∧
        (headlessExtract (.ok c)).price_numeric = digitsToNat ds) ∧
    pricePair (some "$0") = ("$0", 0) ∧
    ¬ (pricePair (some "$0")).1 = "" := by
  refine ⟨?_, ?_, by decide, by decide⟩
  · intro c
    rw [trackerExtract_price, trackerExtract_price_numeric]
    rcases pricePair_shape c.priceText with ⟨h1, -⟩ | ⟨ds, hne, hall, h1, h2⟩
    · exact Or.inl h1
    · exact Or.inr ⟨ds, hne, hall, h1, h2⟩
  · intro c
    rw [headlessExtract_price, headlessExtract_price_numeric]
    rcases pricePair_shape c.priceText with ⟨h1, -⟩ | ⟨ds, hne, hall, h1, h2⟩
    · exact Or.inl h1
    · exact Or.inr ⟨ds, hne, hall, h1, h2⟩

/-! ## Claim C2 -/

/-- C2: the tracker's priority classifier is exactly the claimed rule
ladder with the 75 percent medium tier (first match wins), and the
headless variant's per-entry classification agrees with the claimed ladder
at its 50 percent medium cutoff on every report it actually produces (its
missing completely-sold-out rule can never fire there, since a fully sold
page scores 100 percent); the 9-of-10 scenario classifies high and the
8-of-10 scenario classifies medium. -/
theorem priority_classifier_rules :
    (∀ (pct : ℚ) (sold total : Nat) (hp : Bool),
      needsUpdateFn pct sold total hp = specClassify 75 hp pct sold total) ∧
    (∀ (p u : String) (cards : List Fragment),
      classifyHeadlessEntry (headlessScanPartner p u (.ok cards)) =
        specClassify 50 (headlessScanPartner p u (.ok cards)).has_domains
          (headlessScanPartner p u (.ok cards)).percentage_sold
          (headlessScanPartner p u (.ok cards)).sold_domains
          (headlessScanPartner p u (.ok cards)).total_domains) ∧
    (scrapePartnerPage "p" "u" (.html cards9)).needsUpdate =
      { needs_update := true, priority := "high",
        reason := "Almost sold out (9/10 sold)" } ∧
    (scrapePartnerPage "p" "u" (.html cards8)).needsUpdate =
      { needs_update := true, priority := "medium",
        reason := "Mostly sold (8/10 sold)" } := by
  refine ⟨?_, ?_, ?_, ?_⟩
  · intro pct sold total hp
    cases hp with
    | false => simp [needsUpdateFn, specClassify]
    | true =>
      simp only [needsUpdateFn, specClassify, Bool.not_true]
      norm_num
  · intro p u cards
    by_cases hlen : cards.length = 0
    · simp [headlessScanPartner, hlen, classifyHeadlessEntry, specClassify]
    · have hrec : headlessScanPartner p u (.ok cards) =
          { partner := p, url := u, status := "completed", has_domains := true,
            total_domains := cards.length,
            sold_domains := soldOf (cards.map headlessExtract),
            percentage_sold :=
              pyRound2 (rawPct (soldOf (cards.map headlessExtract)) cards.length),
            total_sold_value := soldValueOf (cards.map headlessExtract),
            error_message := "", domains_data := cards.map headlessExtract } := by
        simp [headlessScanPartner, hlen]
      rw [hrec]
      by_cases h90 : (90 : ℚ) ≤ pyRound2 (rawPct (soldOf (cards.map headlessExtract)) cards.length)
      · simp [classifyHeadlessEntry, specClassify, h90]
      · by_cases h50 : (50 : ℚ) ≤ pyRound2 (rawPct (soldOf (cards.map headlessExtract)) cards.length)
        · simp [classifyHeadlessEntry, specClassify, h90, h50]
        · have hne : ¬ (soldOf (cards.map headlessExtract) = cards.length) := by
            intro he
            apply h50
            rw [he, rawPct_self (Nat.pos_of_ne_zero hlen), pyRound2_hundred]
            norm_num
          simp [classifyHeadlessEntry, specClassify, h90, h50, hne]
  · have h1 : (scrapePartnerPage "p" "u" (.html cards9)).needsUpdate =
        needsUpdateFn (rawPct (soldOf (trackerDomains cards9)) cards9.length)
          (soldOf (trackerDomains cards9)) cards9.length
          (decide (0 < cards9.length)) := rfl
    rw [h1]
    have hs : soldOf (trackerDomains cards9) = 9 := by decide
    have hl : cards9.length = 10 := by decide
    rw [hs, hl]
    have hp : rawPct 9 10 = 90 := by
      unfold rawPct
      norm_num
    rw [hp, show (decide (0 < 10) : Bool) = true from rfl]
    unfold needsUpdateFn
    norm_num
    decide
  · have h1 : (scrapePartnerPage "p" "u" (.html cards8)).needsUpdate =
        needsUpdateFn (rawPct (soldOf (trackerDomains cards8)) cards8.length)
          (soldOf (trackerDomains cards8)) cards8.length
          (decide (0 < cards8.length)) := rfl
    rw [h1]
    have hs : soldOf (trackerDomains cards8) = 8 := by decide
    have hl : cards8.length = 10 := by decide
    rw [hs, hl]
    have hp : rawPct 8 10 = 80 := by
      unfold rawPct
      norm_num
    rw [hp, show (decide (0 < 10) : Bool) = true from rfl]
    unfold needsUpdateFn
    norm_num
    decide

/-! ## Claim C6 -/

theorem dollarAt_cons_succ (c : Char) (rest : List Char) (i : Nat) :
    dollarAt (c :: rest) (i + 1) ↔ dollarAt rest i := by
  simp [dollarAt]

theorem firstDollar_shift (c : Char) (rest ds : List Char)
    (h0 : ¬ dollarAt (c :: rest) 0) :
    (∃ i, dollarAt (c :: rest) i ∧ (∀ j, j < i → ¬ dollarAt (c :: rest) j) ∧
        ds = ((c :: rest).drop (i + 1)).takeWhile Char.isDigit) ↔
    (∃ i, dollarAt rest i ∧ (∀ j, j < i → ¬ dollarAt rest j) ∧
        ds = (rest.drop (i + 1)).takeWhile Char.isDigit) := by
  constructor
  · rintro ⟨i, hi, hmin, hds⟩
    cases i with
    | zero => exact absurd hi h0
    | succ k =>
      refine ⟨k, (dollarAt_cons_succ c rest k).mp hi, ?_, ?_⟩
      · intro j hj hd
        exact hmin (j + 1) (Nat.succ_lt_succ hj) ((dollarAt_cons_succ c rest j).mpr hd)
      · simpa using hds
  · rintro ⟨i, hi, hmin, hds⟩
    refine ⟨i + 1, (dollarAt_cons_succ c rest i).mpr hi, ?_, ?_⟩
    · intro j hj
      cases j with
      | zero => exact h0
      | succ k =>
        intro hd
        exact hmin k (Nat.lt_of_succ_lt_succ hj) ((dollarAt_cons_succ c rest k).mp hd)
    · simpa using hds

theorem findDollarDigits_iff_first (l ds : List Char) :
    findDollarDigits l = some ds ↔
    ∃ i, dollarAt l i ∧ (∀ j, j < i → ¬ dollarAt l j) ∧
      ds = (l.drop (i + 1)).takeWhile Char.isDigit := by
  induction l with
  | nil => simp [findDollarDigits, dollarAt]
  | cons c rest ih =>
    by_cases hc : c = '$'
    · by_cases hemp : (rest.takeWhile Char.isDigit).isEmpty = true
      · have h0 : ¬ dollarAt (c :: rest) 0 := by
          rintro ⟨-, d, hd, hdig⟩
          cases rest with
          | nil => simp at hd
          | cons r rs =>
            simp at hd
            subst hd
            rw [List.takeWhile_cons, if_pos hdig] at hemp
            simp at hemp
        have hrw : findDollarDigits (c :: rest) = findDollarDigits rest := by
          simp [findDollarDigits, hc, hemp]
        rw [hrw, ih]
        exact (firstDollar_shift c rest ds h0).symm
      · have hne : rest.takeWhile Char.isDigit ≠ [] := by
          intro hnil
          rw [hnil] at hemp
          simp at hemp
        have hval : findDollarDigits (c :: rest) = some (rest.takeWhile Char.isDigit) := by
          simp [findDollarDigits, hc, hemp]
        have h0 : dollarAt (c :: rest) 0 := by
          subst hc
          refine ⟨by simp, ?_⟩
          cases hr : rest with
          | nil =>
            rw [hr] at hne
            simp at hne
          | cons r rs =>
            refine ⟨r, by simp [hr], ?_⟩
            by_contra hdig
            apply hne
            rw [hr, List.takeWhile_cons, if_neg hdig]
        constructor
        · intro h
          rw [hval] at h
          have hds : ds = rest.takeWhile Char.isDigit := (Option.some.inj h).symm
          refine ⟨0, h0, ?_, ?_⟩
          · intro j hj
            exact absurd hj (Nat.not_lt_zero j)
          · simpa using hds
        · rintro ⟨i, hi, hmin, hds⟩
          have hi0 : i = 0 := by
            by_contra hne0
            exact hmin 0 (Nat.pos_of_ne_zero hne0) h0
          subst hi0
          rw [hval]
          simp at hds
          rw [hds]
    · have h0 : ¬ dollarAt (c :: rest) 0 := by
        rintro ⟨h1, -⟩
        simp at h1
        exact hc h1
      have hrw : findDollarDigits (c :: rest) = findDollarDigits rest := by
        simp [findDollarDigits, hc]
      rw [hrw, ih]
      exact (firstDollar_shift c rest ds h0).symm

/-- C6: the price extraction takes the first integer following a dollar
sign: the matched digit run sits at the first position where a dollar sign
is immediately followed by a digit and extends maximally; a found run
gives display dollar-digits and its value, otherwise (no price element or
no match) the empty display and 0 without error; price text with an
amount and trailing words parses, and price text with no dollar amount
yields the empty result. -/
theorem price_extraction_first_dollar_integer :
    (∀ l ds : List Char, findDollarDigits l = some ds ↔
      ∃ i, dollarAt l i ∧ (∀ j, j < i → ¬ dollarAt l j) ∧
        ds = (l.drop (i + 1)).takeWhile Char.isDigit) ∧
    pricePair none = ("", 0) ∧
    (∀ t : String, findDollarDigits (pyStrip t).data = none →
      pricePair (some t) = ("", 0)) ∧
    pricePair (some "$250 USD") = ("$250", 250) ∧
    pricePair (some "Contact us") = ("", 0) ∧
    (∀ c : Card, (trackerExtract (.ok c)).price = (pricePair c.priceText).1 ∧
      (trackerExtract (.ok c)).price_numeric = (pricePair c.priceText).2) := by
  refine ⟨findDollarDigits_iff_first, rfl, ?_, by decide, by decide, ?_⟩
  · intro t h
    simp [pricePair, h]
  · intro c
    exact ⟨rfl, rfl⟩

/-- C10 counterexample: price text with leading zeros after the dollar
sign gives a display that is neither empty nor a dollar sign followed by
the decimal digits of price_numeric. -/
theorem price_display_leading_zeros_counterexample :
    (trackerExtract (.ok c007)).price = "$007" ∧
    (trackerExtract (.ok c007)).price_numeric = 7 ∧
    ¬ (trackerExtract (.ok c007)).price = "" ∧
    ¬ (trackerExtract (.ok c007)).price =
        "$" ++ Nat.repr (trackerExtract (.ok c007)).price_numeric := by
  refine ⟨by decide, by decide, by decide, by decide⟩

/-! ## Orchestrator and summary lemmas -/

theorem scrapePartnerPage_url (p u : String) (o : FetchOutcome) :
    (scrapePartnerPage p u o).url = u := by
  cases o <;> rfl

theorem scrapePartnerPage_error_isSome (p u : String) (o : FetchOutcome) :
    (scrapePartnerPage p u o).error.isSome = fetchFailed o := by
  cases o <;> rfl

theorem scanAllPartners_results (inputs : List (String × FetchOutcome)) :
    (scanAllPartners inputs).results =
      inputs.map (fun q => scrapePartnerPage (partnerName q.1) q.1 q.2) := rfl

theorem scanAllPartners_summary (inputs : List (String × FetchOutcome)) :
    (scanAllPartners inputs).summary =
      generateSummary (inputs.map (fun q => scrapePartnerPage (partnerName q.1) q.1 q.2)) := rfl

theorem length_filter_partition {α : Type} (p : α → Bool) (l : List α) :
    l.length = (l.filter p).length + (l.filter (fun a => !p a)).length := by
  induction l with
  | nil => rfl
  | cons a rest ih =>
    cases h : p a <;> simp [List.filter_cons, h, ih] <;> omega

theorem soldOf_map_le (f : Fragment → Record) (cards : List Fragment) :
    soldOf (cards.map f) ≤ cards.length := by
  have h := List.length_filter_le (fun d => decide (d.status = Status.sold)) (cards.map f)
  simpa [soldOf] using h

theorem generateSummary_total (rs : List PageReport) :
    (generateSummary rs).total_partners_scanned = rs.length := rfl

theorem generateSummary_successful (rs : List PageReport) :
    (generateSummary rs).successful_scans =
      (rs.filter (fun r => r.error.isNone)).length := rfl

theorem generateSummary_failed (rs : List PageReport) :
    (generateSummary rs).failed_scans =
      (rs.filter (fun r => r.error.isSome)).length := rfl

theorem generateSummary_totalDomains (rs : List PageReport) :
    (generateSummary rs).total_domains_across_all_partners =
      ((pagesWithDomains rs).map (fun r => r.total_domains)).sum := rfl

theorem generateSummary_totalSold (rs : List PageReport) :
    (generateSummary rs).total_sold_across_all_partners =
      ((pagesWithDomains rs).map (fun r => r.sold_domains)).sum := rfl

theorem generateSummary_totalValue (rs : List PageReport) :
    (generateSummary rs).total_sold_value =
      ((pagesWithDomains rs).map (fun r => r.total_sold_value)).sum := rfl

theorem generateSummary_rate (rs : List PageReport) :
    (generateSummary rs).overall_sell_through_rate =
      pyRound2 (if 0 < ((pagesWithDomains rs).map (fun r => r.total_domains)).sum
        then (((((pagesWithDomains rs).map (fun r => r.sold_domains)).sum : Nat) : ℚ)) /
          (((((pagesWithDomains rs).map (fun r => r.total_domains)).sum : Nat) : ℚ)) * 100
        else 0) := rfl

theorem summary_partition (rs : List PageReport) :
    (generateSummary rs).total_partners_scanned =
      (generateSummary rs).successful_scans + (generateSummary rs).failed_scans := by
  rw [generateSummary_total, generateSummary_successful, generateSummary_failed]
  have hfc : rs.filter (fun r => r.error.isSome) =
      rs.filter (fun r => !(fun q : PageReport => q.error.isNone) r) :=
    List.filter_congr (fun a _ => by cases h : a.error <;> simp [h])
  rw [hfc]
  exact length_filter_partition (fun r => r.error.isNone) rs

theorem pagesWithDomains_eq (rs : List PageReport) :
    pagesWithDomains rs =
      rs.filter (fun r => r.error.isNone && r.has_premium_domains) := by
  unfold pagesWithDomains
  rw [List.filter_filter]
  exact List.filter_congr (fun a _ => Bool.and_comm _ _)

/-! ## Claim C3 -/

theorem splitSlash_ne_nil (l : List Char) : ¬ splitSlash l = [] := by
  cases l with
  | nil => simp [splitSlash]
  | cons c rest =>
    cases h : splitSlash rest with
    | nil =>
      simp only [splitSlash, h]
      split <;> simp
    | cons a t =>
      simp only [splitSlash, h]
      split <;> simp

theorem splitSlash_singleton :
    ∀ l p : List Char, splitSlash l = [p] → l = p := by
  intro l
  induction l with
  | nil =>
    intro p h
    simp [splitSlash] at h
    exact h.symm
  | cons c rest ih =>
    intro p h
    cases hsp : splitSlash rest with
    | nil => exact absurd hsp (splitSlash_ne_nil rest)
    | cons a t =>
      simp only [splitSlash, hsp] at h
      by_cases hc : c = '/'
      · rw [if_pos hc] at h
        simp at h
      · rw [if_neg hc] at h
        simp only [List.cons.injEq] at h
        obtain ⟨h1, h2⟩ := h
        have h3 : rest = a := by
          apply ih
          rw [hsp, h2]
        rw [h3, h1]

theorem mk_cons_ne_empty (c : Char) (l : List Char) :
    ¬ String.mk (c :: l) = "" := by
  intro h
  have h2 : (c :: l : List Char) = [] := congrArg String.data h
  exact List.noConfusion h2

theorem handlerPartnerName_none {url : String}
    (h : handlerPartnerName url = none) : url = "" := by
  cases hsp : splitSlash url.data with
  | nil => exact absurd hsp (splitSlash_ne_nil url.data)
  | cons a t =>
    unfold handlerPartnerName at h
    rw [hsp] at h
    rcases t with - | ⟨b, t2⟩
    · by_cases hx : String.mk a = ""
      · have hurl : url.data = a := by
          apply splitSlash_singleton
          exact hsp
        have ha : a = [] := congrArg String.data hx
        have h2 : url = String.mk url.data := rfl
        rw [hurl, ha] at h2
        exact h2.trans (by decide)
      · exfalso
        rw [if_pos (by simpa using hx)] at h
        exact Option.noConfusion h
    · exfalso
      by_cases h1 : ((((a :: b :: t2 : List (List Char))).map String.mk).getLastD "") = ""
      · rw [if_neg (not_not_intro h1),
          if_pos (by simp : 2 ≤ (((a :: b :: t2 : List (List Char))).map String.mk).length)] at h
        exact Option.noConfusion h
      · rw [if_pos h1] at h
        exact Option.noConfusion h

theorem tryPartnerName_some_ne_empty {url : String} {n : String}
    (h : tryPartnerName url = some n) : ¬ url = "" := by
  intro he
  rw [he] at h
  rw [show tryPartnerName "" = none from by decide] at h
  exact Option.noConfusion h

theorem handlerPartnerName_isSome_of_ne {url : String} (h : ¬ url = "") :
    ∃ hn, handlerPartnerName url = some hn := by
  cases hcase : handlerPartnerName url with
  | none => exact absurd (handlerPartnerName_none hcase) h
  | some x => exact ⟨x, rfl⟩

theorem scrapePartnerPageExc_ok_of_ne {url : String} (h : ¬ url = "")
    (o : FetchOutcome) : ∃ r, scrapePartnerPageExc url o = .ok r := by
  obtain ⟨hn, hh⟩ := handlerPartnerName_isSome_of_ne h
  unfold scrapePartnerPageExc
  cases htry : tryPartnerName url with
  | none =>
    rw [hh]
    exact ⟨_, rfl⟩
  | some name =>
    cases o with
    | exn msg =>
      rw [hh]
      exact ⟨_, rfl⟩
    | html cards => exact ⟨_, rfl⟩
    | fetchFail => exact ⟨_, rfl⟩

theorem scrapePartnerPageExc_url {url : String} {o : FetchOutcome}
    {r : PageReport} (h : scrapePartnerPageExc url o = .ok r) : r.url = url := by
  unfold scrapePartnerPageExc at h
  cases htry : tryPartnerName url with
  | none =>
    rw [htry] at h
    cases hh : handlerPartnerName url with
    | none =>
      rw [hh] at h
      exact Except.noConfusion h
    | some hn =>
      rw [hh] at h
      rw [← Except.ok.inj h]
      rfl
  | some name =>
    rw [htry] at h
    cases o with
    | exn msg =>
      cases hh : handlerPartnerName url with
      | none =>
        rw [hh] at h
        exact Except.noConfusion h
      | some hn =>
        rw [hh] at h
        rw [← Except.ok.inj h]
        rfl
    | html cards =>
      rw [← Except.ok.inj h]
      exact scrapePartnerPage_url name url _
    | fetchFail =>
      rw [← Except.ok.inj h]
      exact scrapePartnerPage_url name url _

theorem scrapePartnerPageExc_error_isSome {url : String} {o : FetchOutcome}
    {r : PageReport} (htry : (tryPartnerName url).isSome = true)
    (h : scrapePartnerPageExc url o = .ok r) :
    r.error.isSome = fetchFailed o := by
  obtain ⟨name, hname⟩ := Option.isSome_iff_exists.mp htry
  unfold scrapePartnerPageExc at h
  rw [hname] at h
  cases o with
  | exn msg =>
    cases hh : handlerPartnerName url with
    | none =>
      rw [hh] at h
      exact Except.noConfusion h
    | some hn =>
      rw [hh] at h
      rw [← Except.ok.inj h]
      rfl
  | html cards =>
    rw [← Except.ok.inj h]
    exact scrapePartnerPage_error_isSome name url _
  | fetchFail =>
    rw [← Except.ok.inj h]
    exact scrapePartnerPage_error_isSome name url _

theorem runPartners_ok_of (inputs : List (String × FetchOutcome))
    (h : ∀ q ∈ inputs, ¬ q.1 = "") : ∃ rs, runPartners inputs = .ok rs := by
  induction inputs with
  | nil => exact ⟨[], rfl⟩
  | cons q rest ih =>
    obtain ⟨r, hr⟩ :=
      scrapePartnerPageExc_ok_of_ne (h q (List.mem_cons_self q rest)) q.2
    obtain ⟨rs, hrs⟩ := ih (fun x hx => h x (List.mem_cons_of_mem q hx))
    exact ⟨r :: rs, by simp [runPartners, hr, hrs]⟩

theorem runPartners_urls (inputs : List (String × FetchOutcome))
    (rs : List PageReport) (h : runPartners inputs = .ok rs) :
    rs.map (fun r => r.url) = inputs.map (fun q => q.1) ∧
      rs.length = inputs.length := by
  induction inputs generalizing rs with
  | nil =>
    simp [runPartners] at h
    subst h
    simp
  | cons q rest ih =>
    cases hx : scrapePartnerPageExc q.1 q.2 with
    | error e =>
      simp only [runPartners, hx] at h
      exact Except.noConfusion h
    | ok r =>
      simp only [runPartners, hx] at h
      cases hrest : runPartners rest with
      | error e =>
        rw [hrest] at h
        exact Except.noConfusion h
      | ok rs2 =>
        rw [hrest] at h
        have h3 := Except.ok.inj h
        subst h3
        obtain ⟨h1, h2⟩ := ih rs2 hrest
        constructor
        · simp [h1, scrapePartnerPageExc_url hx]
        · simp [h2]

theorem runPartners_failed (inputs : List (String × FetchOutcome))
    (rs : List PageReport)
    (hguard : ∀ q ∈ inputs, (tryPartnerName q.1).isSome = true)
    (h : runPartners inputs = .ok rs) :
    (rs.filter (fun r => r.error.isSome)).length =
      (inputs.filter (fun q => fetchFailed q.2)).length := by
  induction inputs generalizing rs with
  | nil =>
    simp [runPartners] at h
    subst h
    simp
  | cons q rest ih =>
    cases hx : scrapePartnerPageExc q.1 q.2 with
    | error e =>
      simp only [runPartners, hx] at h
      exact Except.noConfusion h
    | ok r =>
      simp only [runPartners, hx] at h
      cases hrest : runPartners rest with
      | error e =>
        rw [hrest] at h
        exact Except.noConfusion h
      | ok rs2 =>
        rw [hrest] at h
        have h3 := Except.ok.inj h
        subst h3
        have hbit : r.error.isSome = fetchFailed q.2 :=
          scrapePartnerPageExc_error_isSome
            (hguard q (List.mem_cons_self q rest)) hx
        have ihh := ih rs2 (fun x hx2 => hguard x (List.mem_cons_of_mem q hx2)) hrest
        cases hfc : fetchFailed q.2 <;>
          simp [List.filter_cons, hbit, hfc, ihh]

theorem keys_upsert (m : List (String × ScanResult)) (k : String)
    (v : ScanResult) :
    (upsert m k v).map (fun e => e.1) =
      if m.any (fun e => decide (e.1 = k)) then m.map (fun e => e.1)
      else m.map (fun e => e.1) ++ [k] := by
  unfold upsert
  split
  · rw [List.map_map]
    apply List.map_congr_left
    intro e _
    by_cases h : e.1 = k <;> simp [h]
  · simp

theorem mem_keys_upsert (m : List (String × ScanResult)) (n k : String)
    (v : ScanResult) :
    k ∈ (upsert m n v).map (fun e => e.1) ↔
      k ∈ m.map (fun e => e.1) ∨ k = n := by
  rw [keys_upsert]
  split
  · rename_i hany
    obtain ⟨e, he, he2⟩ := List.any_eq_true.mp hany
    have hn : n ∈ m.map (fun e => e.1) := by
      simp only [decide_eq_true_eq] at he2
      exact List.mem_map.mpr ⟨e, he, he2⟩
    constructor
    · exact Or.inl
    · rintro (h1 | rfl)
      · exact h1
      · exact hn
  · simp

theorem nodup_keys_upsert (m : List (String × ScanResult)) (n : String)
    (v : ScanResult) (h : (m.map (fun e => e.1)).Nodup) :
    ((upsert m n v).map (fun e => e.1)).Nodup := by
  rw [keys_upsert]
  split
  · exact h
  · rename_i hany
    refine h.append (List.nodup_singleton n) ?_
    intro a ha hb
    rw [List.mem_singleton] at hb
    subst hb
    apply hany
    obtain ⟨e, he, he2⟩ := List.mem_map.mp ha
    exact List.any_eq_true.mpr ⟨e, he, by simp [he2]⟩

theorem mem_upsert {m : List (String × ScanResult)} {n : String}
    {v : ScanResult} {e : String × ScanResult} (h : e ∈ upsert m n v) :
    e ∈ m ∨ e.2 = v := by
  unfold upsert at h
  split at h
  · obtain ⟨a, ha, hae⟩ := List.mem_map.mp h
    by_cases hak : a.1 = n
    · right
      rw [← hae]
      simp [hak]
    · left
      rw [← hae, if_neg hak]
      exact ha
  · rcases List.mem_append.mp h with h1 | h2
    · exact Or.inl h1
    · right
      rw [List.mem_singleton.mp h2]

theorem headlessScanPartner_status (name url : String)
    (o : Except String (List Fragment)) :
    (headlessScanPartner name url o).status = "completed" ∨
      (headlessScanPartner name url o).status = "error" := by
  cases o with
  | error m => exact Or.inr rfl
  | ok cards =>
    left
    simp only [headlessScanPartner]
    split <;> rfl

theorem status_partition (m : List (String × ScanResult))
    (h : ∀ e ∈ m, e.2.status = "completed" ∨ e.2.status = "error") :
    m.length = (m.filter (fun e => decide (e.2.status = "completed"))).length +
      (m.filter (fun e => decide (e.2.status = "error"))).length := by
  induction m with
  | nil => rfl
  | cons e rest ih =>
    have hrest := ih (fun x hx => h x (List.mem_cons_of_mem e hx))
    rcases h e (List.mem_cons_self e rest) with hc | he2
    · have hne : ¬ e.2.status = "error" := by
        rw [hc]
        decide
      simp only [List.filter_cons, hc, List.length_cons]
      rw [if_pos (by decide), if_neg (by simp [hne, hc])]
      simp [hrest]
      omega
    · have hne : ¬ e.2.status = "completed" := by
        rw [he2]
        decide
      simp only [List.filter_cons, he2, List.length_cons]
      rw [if_neg (by simp [hne, he2]), if_pos (by decide)]
      simp [hrest]
      omega

theorem headlessRunScanGo_spec :
    ∀ (inputs : List (String × Except String (List Fragment)))
      (acc m : List (String × ScanResult)),
      headlessRunScanGo acc inputs = some m →
      ((acc.map (fun e => e.1)).Nodup → (m.map (fun e => e.1)).Nodup) ∧
      (∀ k : String, k ∈ m.map (fun e => e.1) ↔
        k ∈ acc.map (fun e => e.1) ∨ ∃ q ∈ inputs, tryPartnerName q.1 = some k) ∧
      ((∀ e ∈ acc, e.2.status = "completed" ∨ e.2.status = "error") →
        ∀ e ∈ m, e.2.status = "completed" ∨ e.2.status = "error") := by
  intro inputs
  induction inputs with
  | nil =>
    intro acc m h
    simp [headlessRunScanGo] at h
    subst h
    exact ⟨fun h2 => h2, fun k => by simp, fun h2 => h2⟩
  | cons q rest ih =>
    intro acc m h
    simp only [headlessRunScanGo] at h
    cases htry : tryPartnerName q.1 with
    | none =>
      rw [htry] at h
      exact Option.noConfusion h
    | some name =>
      rw [htry] at h
      obtain ⟨ha, hb, hc⟩ :=
        ih (upsert acc name (headlessScanPartner name q.1 q.2)) m h
      refine ⟨?_, ?_, ?_⟩
      · intro hnd
        exact ha (nodup_keys_upsert acc name _ hnd)
      · intro k
        rw [hb k, mem_keys_upsert]
        constructor
        · rintro ((h1 | rfl) | ⟨q2, hq2, ht2⟩)
          · exact Or.inl h1
          · exact Or.inr ⟨q, List.mem_cons_self q rest, htry⟩
          · exact Or.inr ⟨q2, List.mem_cons_of_mem q hq2, ht2⟩
        · rintro (h1 | ⟨q2, hq2, ht2⟩)
          · exact Or.inl (Or.inl h1)
          · rcases List.mem_cons.mp hq2 with h3 | h3
            · subst h3
              rw [htry] at ht2
              exact Or.inl (Or.inr (Option.some.inj ht2).symm)
            · exact Or.inr ⟨q2, h3, ht2⟩
      · intro hstat e he
        apply hc
        · intro e2 he2
          rcases mem_upsert he2 with h1 | h2
          · exact hstat e2 h1
          · rw [h2]
            exact headlessScanPartner_status name q.1 q.2
        · exact he

/-- C3 (amended): for every input list of partner URLs containing no empty
URL the tracker orchestrator completes, and every completed run lists
exactly one entry per requested URL, in input order with the input URL,
with total_partners_scanned equal to the input length and to successful
plus failed scans; when every URL's try-block name derivation succeeds,
failed_scans counts exactly the fetch and parse failures (the empty URL
instead raises IndexError inside the error handler and aborts the run).
The headless orchestrator keys results by derived partner name, so a later
URL with the same derived name overwrites the earlier entry: in every
completed headless run each distinct derived name appears exactly once —
the stored names are exactly the derived names of the requested URLs,
without duplicates — and the entry count splits into completed plus error
entries. -/
theorem orchestrator_accounts_every_partner :
    (∀ inputs : List (String × FetchOutcome),
      (∀ q ∈ inputs, ¬ q.1 = "") →
      ∃ rep, scanAllPartnersExc inputs = Except.ok rep) ∧
    (∀ (inputs : List (String × FetchOutcome)) (rep : ScanReport),
      scanAllPartnersExc inputs = Except.ok rep →
      rep.results.map (fun r => r.url) = inputs.map (fun q => q.1) ∧
      rep.results.length = inputs.length ∧
      rep.summary.total_partners_scanned = inputs.length ∧
      rep.summary.total_partners_scanned =
        rep.summary.successful_scans + rep.summary.failed_scans) ∧
    (∀ (inputs : List (String × FetchOutcome)) (rep : ScanReport),
      scanAllPartnersExc inputs = Except.ok rep →
      (∀ q ∈ inputs, (tryPartnerName q.1).isSome = true) →
      rep.summary.failed_scans =
        (inputs.filter (fun q => fetchFailed q.2)).length) ∧
    ((scanAllPartnersExc demoInputs).toOption.map
        (fun rep => rep.summary.total_partners_scanned) = some 2 ∧
     (scanAllPartnersExc demoInputs).toOption.map
        (fun rep => rep.summary.successful_scans) = some 1 ∧
     (scanAllPartnersExc demoInputs).toOption.map
        (fun rep => rep.summary.failed_scans) = some 1) ∧
    (∀ (inputs : List (String × Except String (List Fragment)))
        (m : List (String × ScanResult)),
      headlessRunScan inputs = some m →
      (m.map (fun e => e.1)).Nodup ∧
      (∀ k : String, k ∈ m.map (fun e => e.1) ↔
        ∃ q ∈ inputs, tryPartnerName q.1 = some k) ∧
      m.length =
        (m.filter (fun e => decide (e.2.status = "completed"))).length +
          (m.filter (fun e => decide (e.2.status = "error"))).length) := by
  refine ⟨?_, ?_, ?_, ⟨by decide, by decide, by decide⟩, ?_⟩
  · intro inputs hg
    obtain ⟨rs, hrs⟩ := runPartners_ok_of inputs hg
    refine ⟨{ summary := generateSummary rs, results := rs }, ?_⟩
    unfold scanAllPartnersExc
    rw [hrs]
  · intro inputs rep h
    unfold scanAllPartnersExc at h
    cases hrs : runPartners inputs with
    | error e =>
      rw [hrs] at h
      exact Except.noConfusion h
    | ok rs =>
      rw [hrs] at h
      obtain ⟨h1, h2⟩ := runPartners_urls inputs rs hrs
      rw [← Except.ok.inj h]
      exact ⟨h1, h2, h2 ▸ generateSummary_total rs, summary_partition rs⟩
  · intro inputs rep h hguard
    unfold scanAllPartnersExc at h
    cases hrs : runPartners inputs with
    | error e =>
      rw [hrs] at h
      exact Except.noConfusion h
    | ok rs =>
      rw [hrs] at h
      rw [← Except.ok.inj h]
      rw [generateSummary_failed]
      exact runPartners_failed inputs rs hguard hrs
  · intro inputs m h
    obtain ⟨ha, hb, hc⟩ := headlessRunScanGo_spec inputs [] m h
    refine ⟨ha (by simp), ?_, ?_⟩
    · intro k
      rw [hb k]
      simp
    · exact status_partition m (hc (by simp))

/-- C3 counterexample: the empty URL makes the tracker orchestrator raise
IndexError inside its own error handler, so no report is produced for that
input list at all; and the headless orchestrator keys results by derived
partner name, so two distinct requested URLs with the same last path
segment leave a single entry (the later overwrites the earlier), refuting
the claim that every requested partner appears exactly once for every
input list. -/
theorem empty_url_crash_and_name_collision :
    scanAllPartnersExc [("", FetchOutcome.html [])] =
      Except.error "list index out of range" ∧
    tryPartnerName "https://a/p" = some "p" ∧
    tryPartnerName "https://b/p" = some "p" ∧
    ¬ ("https://a/p" : String) = "https://b/p" ∧
    (headlessRunScan [("https://a/p", Except.ok ([] : List Fragment)),
        ("https://b/p", Except.ok ([] : List Fragment))]).map
      (fun m => m.map (fun e => e.1)) = some ["p"] := by
  refine ⟨rfl, by decide, by decide, by decide, rfl⟩

/-! ## Claim C4 -/

/-- C4: in every success entry, total counts all cards, sold counts the
records with status sold, total equals sold plus available, and available
is exactly the count of records whose status is not sold (so coming_soon
and error records land in the available side of the split); the 10-card
9-sold fixture splits 10 = 9 + 1, and the headless variant also keeps
sold at most total. -/
theorem total_eq_sold_add_available :
    (∀ (inputs : List (String × FetchOutcome)) (r : PageReport),
      r ∈ (scanAllPartners inputs).results → r.error = none →
      r.total_domains = r.domains.length ∧
      r.sold_domains =
        (r.domains.filter (fun d => decide (d.status = Status.sold))).length ∧
      r.sold_domains ≤ r.total_domains ∧
      r.total_domains = r.sold_domains + r.available_domains ∧
      r.available_domains =
        (r.domains.filter (fun d => !(decide (d.status = Status.sold)))).length) ∧
    ((scrapePartnerPage "p" "u" (.html cards9)).total_domains = 10 ∧
     (scrapePartnerPage "p" "u" (.html cards9)).sold_domains = 9 ∧
     (scrapePartnerPage "p" "u" (.html cards9)).available_domains = 1) ∧
    (scrapePartnerPage "u" "u" (.html cards9) ∈
      (scanAllPartners [("u", FetchOutcome.html cards9)]).results ∧
     (scrapePartnerPage "u" "u" (.html cards9)).error = none) ∧
    (∀ (p u : String) (cards : List Fragment),
      (headlessScanPartner p u (.ok cards)).sold_domains ≤
        (headlessScanPartner p u (.ok cards)).total_domains) := by
  have hn : partnerName "u" = "u" := by decide
  refine ⟨?_, ⟨by decide, by decide, by decide⟩,
    ⟨by rw [scanAllPartners_results]; simp [hn], rfl⟩, ?_⟩
  · intro inputs r hm he
    rw [scanAllPartners_results] at hm
    obtain ⟨q, hq, rfl⟩ := List.mem_map.mp hm
    cases ho : q.2 with
    | fetchFail =>
      rw [ho] at he
      simp [scrapePartnerPage, errorPageReport] at he
    | exn m =>
      rw [ho] at he
      simp [scrapePartnerPage, errorPageReport] at he
    | html cards =>
      have hle : soldOf (trackerDomains cards) ≤ cards.length :=
        soldOf_map_le trackerExtract cards
      have hpart := length_filter_partition
        (fun d => decide (d.status = Status.sold)) (trackerDomains cards)
      have hlen2 : (trackerDomains cards).length = cards.length := by
        simp [trackerDomains]
      refine ⟨?_, rfl, hle, ?_, ?_⟩
      · show cards.length = (trackerDomains cards).length
        exact hlen2.symm
      · show cards.length = soldOf (trackerDomains cards) +
          (cards.length - soldOf (trackerDomains cards))
        omega
      · show cards.length - soldOf (trackerDomains cards) =
          ((trackerDomains cards).filter
            (fun d => !(decide (d.status = Status.sold)))).length
        unfold soldOf at hle ⊢
        omega
  · intro p u cards
    by_cases hlen : cards.length = 0
    · simp [headlessScanPartner, hlen]
    · have hrec : headlessScanPartner p u (.ok cards) =
          { partner := p, url := u, status := "completed", has_domains := true,
            total_domains := cards.length,
            sold_domains := soldOf (cards.map headlessExtract),
            percentage_sold :=
              pyRound2 (rawPct (soldOf (cards.map headlessExtract)) cards.length),
            total_sold_value := soldValueOf (cards.map headlessExtract),
            error_message := "", domains_data := cards.map headlessExtract } := by
        simp [headlessScanPartner, hlen]
      rw [hrec]
      exact soldOf_map_le headlessExtract cards

/-! ## Claim C7 -/

/-- C7: the stored percentage_sold of a scanned page equals
round(sold/total*100, 2) when the page has cards and 0 when it has none,
and in either case lies within 0 and 100; the same holds for the headless
variant; the 9-of-10 fixture stores exactly 90 and the empty page stores
0. -/
theorem percentage_sold_rounded_bounds :
    (∀ (p u : String) (cards : List Fragment),
      ((scrapePartnerPage p u (.html cards)).total_domains = 0 →
        (scrapePartnerPage p u (.html cards)).percentage_sold = 0) ∧
      (0 < (scrapePartnerPage p u (.html cards)).total_domains →
        (scrapePartnerPage p u (.html cards)).percentage_sold =
          pyRound2 (((scrapePartnerPage p u (.html cards)).sold_domains : ℚ) /
            ((scrapePartnerPage p u (.html cards)).total_domains : ℚ) * 100)) ∧
      0 ≤ (scrapePartnerPage p u (.html cards)).percentage_sold ∧
      (scrapePartnerPage p u (.html cards)).percentage_sold ≤ 100) ∧
    (∀ (p u : String) (cards : List Fragment),
      0 ≤ (headlessScanPartner p u (.ok cards)).percentage_sold ∧
      (headlessScanPartner p u (.ok cards)).percentage_sold ≤ 100 ∧
      ((headlessScanPartner p u (.ok cards)).total_domains = 0 →
        (headlessScanPartner p u (.ok cards)).percentage_sold = 0)) ∧
    (scrapePartnerPage "p" "u" (.html cards9)).percentage_sold = 90 ∧
    (scrapePartnerPage "p" "u" (.html ([] : List Fragment))).percentage_sold = 0 := by
  refine ⟨?_, ?_, ?_, ?_⟩
  · intro p u cards
    have hfields : (scrapePartnerPage p u (.html cards)).percentage_sold =
        pyRound2 (rawPct (soldOf (trackerDomains cards)) cards.length) := rfl
    have htot : (scrapePartnerPage p u (.html cards)).total_domains = cards.length := rfl
    have hsold : (scrapePartnerPage p u (.html cards)).sold_domains =
        soldOf (trackerDomains cards) := rfl
    have hle : soldOf (trackerDomains cards) ≤ cards.length :=
      soldOf_map_le trackerExtract cards
    refine ⟨?_, ?_, ?_, ?_⟩
    · intro h0
      rw [htot] at h0
      rw [hfields, show rawPct (soldOf (trackerDomains cards)) cards.length = 0 from by
        unfold rawPct
        rw [h0]
        simp]
      exact pyRound2_zero
    · intro hpos
      rw [htot] at hpos
      rw [hfields, htot, hsold, show rawPct (soldOf (trackerDomains cards)) cards.length =
        ((soldOf (trackerDomains cards) : ℚ)) / (cards.length : ℚ) * 100 from by
        unfold rawPct
        rw [if_pos hpos]]
    · rw [hfields]
      exact pyRound2_nonneg (rawPct_nonneg _ _)
    · rw [hfields]
      exact pyRound2_le_hundred (rawPct_le_hundred hle)
  · intro p u cards
    by_cases hlen : cards.length = 0
    · have hrec : headlessScanPartner p u (.ok cards) =
          { partner := p, url := u, status := "completed", has_domains := false,
            total_domains := 0, sold_domains := 0, percentage_sold := 0,
            total_sold_value := 0, error_message := "", domains_data := [] } := by
        simp [headlessScanPartner, hlen]
      rw [hrec]
      refine ⟨le_refl 0, by norm_num, fun _ => rfl⟩
    · have hrec : headlessScanPartner p u (.ok cards) =
          { partner := p, url := u, status := "completed", has_domains := true,
            total_domains := cards.length,
            sold_domains := soldOf (cards.map headlessExtract),
            percentage_sold :=
              pyRound2 (rawPct (soldOf (cards.map headlessExtract)) cards.length),
            total_sold_value := soldValueOf (cards.map headlessExtract),
            error_message := "", domains_data := cards.map headlessExtract } := by
        simp [headlessScanPartner, hlen]
      rw [hrec]
      refine ⟨pyRound2_nonneg (rawPct_nonneg _ _),
        pyRound2_le_hundred (rawPct_le_hundred (soldOf_map_le headlessExtract cards)), ?_⟩
      intro h0
      exact absurd h0 hlen
  · have hfields : (scrapePartnerPage "p" "u" (.html cards9)).percentage_sold =
        pyRound2 (rawPct (soldOf (trackerDomains cards9)) cards9.length) := rfl
    rw [hfields, show soldOf (trackerDomains cards9) = 9 from by decide,
      show cards9.length = 10 from by decide,
      show rawPct 9 10 = ((90 : ℤ) : ℚ) from by unfold rawPct; norm_num]
    rw [pyRound2_intCast]
    norm_num
  · have hfields : (scrapePartnerPage "p" "u" (.html ([] : List Fragment))).percentage_sold =
        pyRound2 (rawPct (soldOf (trackerDomains [])) ([] : List Fragment).length) := rfl
    rw [hfields, show rawPct (soldOf (trackerDomains [])) ([] : List Fragment).length = 0 from by
      unfold rawPct
      simp]
    exact pyRound2_zero

/-! ## Claim C8 -/

/-- C8: the summary's domain, sold and value totals are sums over exactly
the successful reports with premium domains (an error-tagged report
contributes nothing), and the overall sell-through rate is
round(total_sold/total_domains*100, 2), defined as 0 when no domains were
found anywhere. -/
theorem summary_sums_over_successful_premium_pages :
    (∀ rs : List PageReport,
      (generateSummary rs).total_domains_across_all_partners =
        ((rs.filter (fun r => r.error.isNone && r.has_premium_domains)).map
          (fun r => r.total_domains)).sum ∧
      (generateSummary rs).total_sold_across_all_partners =
        ((rs.filter (fun r => r.error.isNone && r.has_premium_domains)).map
          (fun r => r.sold_domains)).sum ∧
      (generateSummary rs).total_sold_value =
        ((rs.filter (fun r => r.error.isNone && r.has_premium_domains)).map
          (fun r => r.total_sold_value)).sum) ∧
    (∀ rs : List PageReport,
      (generateSummary rs).total_domains_across_all_partners = 0 →
      (generateSummary rs).overall_sell_through_rate = 0) ∧
    (∀ rs : List PageReport,
      0 < (generateSummary rs).total_domains_across_all_partners →
      (generateSummary rs).overall_sell_through_rate =
        pyRound2 (((generateSummary rs).total_sold_across_all_partners : ℚ) /
          ((generateSummary rs).total_domains_across_all_partners : ℚ) * 100)) ∧
    (∀ (rs : List PageReport) (p u msg : String),
      (generateSummary (errorPageReport p u msg :: rs)).total_domains_across_all_partners =
        (generateSummary rs).total_domains_across_all_partners ∧
      (generateSummary (errorPageReport p u msg :: rs)).total_sold_across_all_partners =
        (generateSummary rs).total_sold_across_all_partners ∧
      (generateSummary (errorPageReport p u msg :: rs)).total_sold_value =
        (generateSummary rs).total_sold_value ∧
      (generateSummary (errorPageReport p u msg :: rs)).overall_sell_through_rate =
        (generateSummary rs).overall_sell_through_rate) ∧
    ((generateSummary [scrapePartnerPage "p" "u" (.html cards9),
        scrapePartnerPage "q" "v" .fetchFail]).total_domains_across_all_partners = 10 ∧
     (generateSummary [scrapePartnerPage "p" "u" (.html cards9),
        scrapePartnerPage "q" "v" .fetchFail]).total_sold_across_all_partners = 9 ∧
     (generateSummary [scrapePartnerPage "p" "u" (.html cards9),
        scrapePartnerPage "q" "v" .fetchFail]).successful_scans = 1 ∧
     (generateSummary [scrapePartnerPage "p" "u" (.html cards9),
        scrapePartnerPage "q" "v" .fetchFail]).failed_scans = 1 ∧
     (generateSummary [scrapePartnerPage "p" "u" (.html cards9),
        scrapePartnerPage "q" "v" .fetchFail]).overall_sell_through_rate = 90) := by
  have hcons : ∀ (rs : List PageReport) (p u msg : String),
      pagesWithDomains (errorPageReport p u msg :: rs) = pagesWithDomains rs := by
    intro rs p u msg
    unfold pagesWithDomains
    simp [errorPageReport, List.filter_cons]
  refine ⟨?_, ?_, ?_, ?_, ?_, ?_, ?_, ?_, ?_⟩
  · intro rs
    refine ⟨?_, ?_, ?_⟩
    · rw [generateSummary_totalDomains, pagesWithDomains_eq]
    · rw [generateSummary_totalSold, pagesWithDomains_eq]
    · rw [generateSummary_totalValue, pagesWithDomains_eq]
  · intro rs h0
    rw [generateSummary_totalDomains] at h0
    rw [generateSummary_rate, if_neg (by omega)]
    exact pyRound2_zero
  · intro rs hpos
    rw [generateSummary_totalDomains] at hpos
    rw [generateSummary_rate, generateSummary_totalSold, generateSummary_totalDomains,
      if_pos hpos]
  · intro rs p u msg
    refine ⟨?_, ?_, ?_, ?_⟩
    · rw [generateSummary_totalDomains, generateSummary_totalDomains, hcons]
    · rw [generateSummary_totalSold, generateSummary_totalSold, hcons]
    · rw [generateSummary_totalValue, generateSummary_totalValue, hcons]
    · rw [generateSummary_rate, generateSummary_rate, hcons]
  · decide
  · decide
  · decide
  · decide
  · rw [generateSummary_rate,
      show ((pagesWithDomains [scrapePartnerPage "p" "u" (.html cards9),
        scrapePartnerPage "q" "v" .fetchFail]).map (fun r => r.total_domains)).sum = 10
        from by decide,
      show ((pagesWithDomains [scrapePartnerPage "p" "u" (.html cards9),
        scrapePartnerPage "q" "v" .fetchFail]).map (fun r => r.sold_domains)).sum = 9
        from by decide,
      if_pos (by norm_num : (0 : Nat) < 10),
      show (((9 : Nat) : ℚ)) / (((10 : Nat) : ℚ)) * 100 = ((90 : ℤ) : ℚ) from by norm_num,
      pyRound2_intCast]
    norm_num

/-! ## Claim C9 -/

/-- C9: on aggregator-produced inputs the classifier's fourth branch
(completely sold out) is unreachable: its guard — a page with cards whose
percentage is below both thresholds yet fully sold — is contradictory,
since a fully sold page with cards scores exactly 100; whenever sold
equals total on a nonempty page, the almost-sold-out high branch fires
instead, as the single fully-sold-card fixture shows. -/
theorem completely_sold_out_branch_unreachable :
    (∀ cards : List Fragment,
      ¬ (0 < cards.length ∧
         rawPct (soldOf (trackerDomains cards)) cards.length < 90 ∧
         rawPct (soldOf (trackerDomains cards)) cards.length < 75 ∧
         soldOf (trackerDomains cards) = cards.length)) ∧
    (∀ (p u : String) (cards : List Fragment),
      soldOf (trackerDomains cards) = cards.length → 0 < cards.length →
      rawPct (soldOf (trackerDomains cards)) cards.length = 100 ∧
      (scrapePartnerPage p u (.html cards)).needsUpdate =
        { needs_update := true, priority := "high",
          reason := "Almost sold out (" ++ Nat.repr cards.length ++ "/" ++
            Nat.repr cards.length ++ " sold)" }) ∧
    (scrapePartnerPage "p" "u" (.html [soldFrag])).needsUpdate =
      { needs_update := true, priority := "high",
        reason := "Almost sold out (1/1 sold)" } := by
  refine ⟨?_, ?_, ?_⟩
  · intro cards
    rintro ⟨hpos, -, h75, heq⟩
    rw [heq, rawPct_self hpos] at h75
    norm_num at h75
  · intro p u cards he hpos
    have hpct : rawPct (soldOf (trackerDomains cards)) cards.length = 100 := by
      rw [he]
      exact rawPct_self hpos
    refine ⟨hpct, ?_⟩
    have h1 : (scrapePartnerPage p u (.html cards)).needsUpdate =
        needsUpdateFn (rawPct (soldOf (trackerDomains cards)) cards.length)
          (soldOf (trackerDomains cards)) cards.length
          (decide (0 < cards.length)) := rfl
    rw [h1, hpct, he, decide_eq_true hpos]
    unfold needsUpdateFn
    norm_num
  · have h1 : (scrapePartnerPage "p" "u" (.html [soldFrag])).needsUpdate =
        needsUpdateFn (rawPct (soldOf (trackerDomains [soldFrag])) [soldFrag].length)
          (soldOf (trackerDomains [soldFrag])) [soldFrag].length
          (decide (0 < [soldFrag].length)) := rfl
    rw [h1, show soldOf (trackerDomains [soldFrag]) = 1 from by decide,
      show [soldFrag].length = 1 from rfl,
      show rawPct 1 1 = ((100 : ℤ) : ℚ) from by unfold rawPct; norm_num,
      show (decide (0 < 1) : Bool) = true from rfl]
    unfold needsUpdateFn
    norm_num
    decide

end Scraper
